import Mathlib

/-!
Verification development for the `mtk_uartboot` orchestrator (`src/main.rs`).

The repository's `src/` contains only `main.rs`, the orchestrator: the
`bootrom` and `bl2` protocol-client modules it calls are declared
(`mod bootrom; mod bl2;`) but their sources are not present. Following the
spec (sections 4.2 and 4.3), each client method is modelled as an opaque
protocol operation whose outcome (success/failure, returned values) is
drawn from an environment record; the orchestrator's control flow is
translated line by line from `main.rs` into functions that return the
ordered trace of protocol operations issued, together with the outcome
(normal return vs. fatal panic / reported error).
-/

namespace MtkUartboot

/-- Error kinds of the protocol layer, from spec section 7. `main.rs` itself
only panics; the kinds matter for modelling which error a failing client
call surfaces. -/
inductive UartError where
  | HandshakeTimeout
  | ProtocolShortReply
  | SecurityPrecondition
  | ChecksumMismatch
  | ShortWrite
  | TransportTimeout
  | BaudSwitchFailed
deriving DecidableEq, Repr

/-- Commands the BootROM DA client issues on the wire, in the order
`load_bl2` (main.rs:42-88) performs them. `sendDa` records the address,
offset and payload bytes passed, plus the device-reported checksum the call
returned to the orchestrator. -/
inductive BromCmd where
  | handshake
  | getHwCode
  | getHwDict
  | getTargetConfig
  | sendDa (addr : Nat) (offset : Nat) (data : List Nat) (reported : Nat)
  | jumpDa (addr : Nat)
deriving DecidableEq, Repr

/-- Command-line arguments of `main.rs` (struct `Args`, main.rs:12-40), with
file paths replaced by the byte contents the orchestrator reads from them
(file I/O is external glue per spec section 1). -/
structure Args where
  payload : List Nat
  load_addr : Nat
  a32_payload : Option (List Nat)
  a32_load_addr : Nat
  fip : Option (List Nat)
  bl2_load_baudrate : Nat
deriving DecidableEq, Repr

/-- Modelled from the spec: behaviour of the missing `bootrom` module's
client methods (spec section 4.2). `handshakeOk` / `sendDaOk` say whether
`handshake()` / `send_da` succeed (on failure they are fatal, spec sections
4.2 and 7); the query methods return the recorded values;
`deviceChecksum addr offset data` is the device-reported checksum that
`send_da` reads back and returns for the caller to compare. -/
structure BromEnv where
  handshakeOk : Bool
  hw_code : Nat
  hw_dict : Nat × Nat × Nat
  secure_boot : Bool
  sla : Bool
  daa : Bool
  sendDaOk : Bool
  deviceChecksum : Nat → Nat → List Nat → Nat

/-- Modelled from the spec: the codec's `compute_checksum(data)` (spec
section 4.1), a running accumulator over fixed-width words; the width and
byte order are protocol constants, taken here as 16-bit little-endian
words summed modulo 2^16. The repository's `src/` does not contain the
codec. -/
def le16words : List Nat → List Nat
  | [] => []
  | [b] => [b % 256]
  | b0 :: b1 :: rest => (b0 % 256 + 256 * (b1 % 256)) :: le16words rest

/-- Modelled from the spec: see `le16words`. -/
def compute_checksum (data : List Nat) : Nat :=
  (le16words data).foldl (fun acc w => (acc + w) % 65536) 0

/-- Trace semantics of `load_bl2` (main.rs:42-88): the list of BootROM
commands issued, and `true` iff the function returned normally (a `panic!`
or a fatal client failure aborts the session and yields `false`).
Control flow mirrors the source: handshake, three queries, the three
security-flag panics (main.rs:55-63), `send_da` of the primary payload,
then either a direct `jump_da(load_addr)` or the a32 upload followed by
`jump_da(a32_load_addr)` (main.rs:71-85). -/
def load_bl2 (args : Args) (env : BromEnv) : List BromCmd × Bool :=
  if env.handshakeOk = false then ([BromCmd.handshake], false)
  else
    let pre := [BromCmd.handshake, BromCmd.getHwCode, BromCmd.getHwDict,
                BromCmd.getTargetConfig]
    if env.secure_boot then (pre, false)
    else if env.sla then (pre, false)
    else if env.daa then (pre, false)
    else
      let c1 := env.deviceChecksum args.load_addr 0 args.payload
      let up1 := BromCmd.sendDa args.load_addr 0 args.payload c1
      if env.sendDaOk = false then (pre ++ [up1], false)
      else
        match args.a32_payload with
        | none => (pre ++ [up1, BromCmd.jumpDa args.load_addr], true)
        | some p =>
            let c2 := env.deviceChecksum args.a32_load_addr 0 p
            (pre ++ [up1, BromCmd.sendDa args.a32_load_addr 0 p c2,
                     BromCmd.jumpDa args.a32_load_addr], true)

/-- Is a BootROM command an upload (`send_da`) command? -/
def BromCmd.isSendDa : BromCmd → Bool
  | BromCmd.sendDa _ _ _ _ => true
  | _ => false

/-- Is a BootROM command an execute (`jump_da`) command? -/
def BromCmd.isJumpDa : BromCmd → Bool
  | BromCmd.jumpDa _ => true
  | _ => false

/-- Events of the BL2 session `load_fip` (main.rs:116-132): the five client
commands plus the final text-banner wait (`wait_for_line` on "Received FIP",
main.rs:131), whose boolean records whether the banner arrived. -/
inductive Bl2Ev where
  | handshake
  | version
  | setBaudrate (rate : Nat)
  | sendFip (bytes : List Nat)
  | go
  | waitReceivedFip (ok : Bool)
deriving DecidableEq, Repr

/-- Modelled from the spec: behaviour of the missing `bl2` module's client
methods (spec section 4.3). `handshake()` has the same probe/echo mechanics
as the BootROM's (spec section 4.2) and on failure reports the generic
`HandshakeTimeout`; `h1Ok` and `h2Ok` are the outcomes of its first call
and of the fresh call after `set_baudrate`. `setBaudOk` is the device's
acknowledgement of `set_baudrate` (a malformed/short reply is a
`ProtocolShortReply`), `sendFipOk` the outcome of the chunked upload
(failing with `ShortWrite`), and `recvFipBannerOk` whether the "Received
FIP" banner arrives before the read timeout. -/
structure Bl2Env where
  h1Ok : Bool
  versionVal : Nat
  setBaudOk : Bool
  h2Ok : Bool
  sendFipOk : Bool
  recvFipBannerOk : Bool
deriving DecidableEq, Repr

/-- Trace semantics of `load_fip` (main.rs:116-132): the ordered events and
the error a failing client call surfaces (`none` = returned normally).
Mirrors the source: `handshake(); version(); set_baudrate(rate);
handshake(); send_fip(payload); go();` then `wait_for_line(_, "Received
FIP")` whose result is discarded. -/
def load_fip (fip : List Nat) (baudrate : Nat) (env : Bl2Env) :
    List Bl2Ev × Option UartError :=
  if env.h1Ok = false then
    ([Bl2Ev.handshake], some UartError.HandshakeTimeout)
  else if env.setBaudOk = false then
    ([Bl2Ev.handshake, Bl2Ev.version, Bl2Ev.setBaudrate baudrate],
     some UartError.ProtocolShortReply)
  else if env.h2Ok = false then
    ([Bl2Ev.handshake, Bl2Ev.version, Bl2Ev.setBaudrate baudrate,
      Bl2Ev.handshake],
     some UartError.HandshakeTimeout)
  else if env.sendFipOk = false then
    ([Bl2Ev.handshake, Bl2Ev.version, Bl2Ev.setBaudrate baudrate,
      Bl2Ev.handshake, Bl2Ev.sendFip fip],
     some UartError.ShortWrite)
  else
    ([Bl2Ev.handshake, Bl2Ev.version, Bl2Ev.setBaudrate baudrate,
      Bl2Ev.handshake, Bl2Ev.sendFip fip, Bl2Ev.go,
      Bl2Ev.waitReceivedFip env.recvFipBannerOk],
     none)

/-- Scanner for invariant (d): walks a BL2 event trace with a flag that is
set by `setBaudrate` and cleared by `handshake`; while the flag is pending,
an upload (`sendFip`) or execute (`go`) event makes the check fail. -/
def handshakeConfirmsBaud : List Bl2Ev → Bool → Bool
  | [], _ => true
  | Bl2Ev.setBaudrate _ :: rest, _ => handshakeConfirmsBaud rest true
  | Bl2Ev.handshake :: rest, _ => handshakeConfirmsBaud rest false
  | Bl2Ev.sendFip _ :: rest, pending =>
      !pending && handshakeConfirmsBaud rest pending
  | Bl2Ev.go :: rest, pending =>
      !pending && handshakeConfirmsBaud rest pending
  | _ :: rest, pending => handshakeConfirmsBaud rest pending

/-- Events at the granularity of `main` (main.rs:134-148): the BootROM
session's commands, the wait for the "Starting UART download handshake"
banner (`wait_bl2_handshake`, main.rs:110-114), and the BL2 session's
events. -/
inductive MainEv where
  | brom (c : BromCmd)
  | waitBl2Banner (ok : Bool)
  | bl2 (e : Bl2Ev)
deriving DecidableEq, Repr

/-- Trace semantics of `main` (main.rs:134-148): runs `load_bl2`; if a FIP
path was given, waits for the BL2 banner (`bl2BannerOk` records whether it
arrived within the timeout) and returns early when it did not, otherwise
runs `load_fip`. The boolean is `true` iff the process ends normally
(early banner-timeout return included), `false` iff it panics. -/
def main_model (args : Args) (benv : BromEnv) (bl2BannerOk : Bool)
    (lenv : Bl2Env) : List MainEv × Bool :=
  let r := load_bl2 args benv
  let bevs := r.1.map MainEv.brom
  if r.2 = false then (bevs, false)
  else
    match args.fip with
    | none => (bevs, true)
    | some f =>
        let evs := bevs ++ [MainEv.waitBl2Banner bl2BannerOk]
        if bl2BannerOk = false then (evs, true)
        else
          let l := load_fip f args.bl2_load_baudrate lenv
          (evs ++ l.1.map MainEv.bl2, l.2.isNone)

/-- The optional-valued CLI arguments carrying a default (`Args`,
main.rs:22, 30, 38): `none` means the argument was omitted on the command
line. -/
structure CliOptions where
  load_addr : Option Nat
  a32_load_addr : Option Nat
  bl2_load_baudrate : Option Nat
deriving DecidableEq, Repr

/-- Resolution of the CLI defaults exactly as clap's `default_value_t`
attributes give them (main.rs:22, 30, 38): `0x201000` for `load_addr`,
`0x200a00` for `a32_load_addr`, `921600` for `bl2_load_baudrate`. -/
def resolveCli (c : CliOptions) : Nat × Nat × Nat :=
  (c.load_addr.getD 0x201000, c.a32_load_addr.getD 0x200a00,
   c.bl2_load_baudrate.getD 921600)

/-- Substring containment, the model of Rust's `str::contains` used at
main.rs:97: `containsSub line pat` holds iff `pat` occurs contiguously in
`line` (lines and patterns are byte lists). -/
def containsSub (line pat : List Nat) : Bool :=
  (List.range (line.length + 1)).any fun i => pat.isPrefixOf (line.drop i)

/-- Fuel-indexed model of the `wait_for_line` loop (main.rs:90-108). The
input stream `s` gives the result of the `k`-th `read_line` call: an I/O
error, or the line read (possibly empty at end of input; `uart_line` is
cleared before every iteration that continues, so each iteration tests
exactly the freshly read line). The loop body at step `k`: on a read error
the `while let` exits and the function returns `false`; on a line
containing the pattern it breaks with `true`; otherwise it loops. `none`
means the loop has not returned within `fuel` iterations. -/
def wait_for_line_go (s : Nat → Except Unit (List Nat)) (pat : List Nat) :
    Nat → Nat → Option Bool
  | 0, _ => none
  | fuel + 1, k =>
      match s k with
      | Except.error _ => some false
      | Except.ok line =>
          if containsSub line pat then some true
          else wait_for_line_go s pat fuel (k + 1)

/-- `wait_for_line` run from its initial state (first `read_line` call,
empty buffer) with the given fuel. -/
def wait_for_line_fuel (s : Nat → Except Unit (List Nat)) (pat : List Nat)
    (fuel : Nat) : Option Bool :=
  wait_for_line_go s pat fuel 0

/-! Concrete fixtures used by witnesses and counterexamples. -/

/-- A small argument set: 2-byte payload, no a32 payload, no FIP path. -/
def argsW : Args :=
  { payload := [0, 1], load_addr := 8, a32_payload := none,
    a32_load_addr := 4, fip := none, bl2_load_baudrate := 5 }

/-- `argsW` with an a32 payload. -/
def argsA32 : Args := { argsW with a32_payload := some [3] }

/-- `argsW` with a FIP path. -/
def argsF : Args := { argsW with fip := some [2] }

/-- BootROM environment where every client call succeeds, all security
flags are clear, and the device reports checksum 0 for every upload. -/
def envAllOk : BromEnv :=
  { handshakeOk := true, hw_code := 0x8516, hw_dict := (0, 1, 2),
    secure_boot := false, sla := false, daa := false, sendDaOk := true,
    deviceChecksum := fun _ _ _ => 0 }

/-- `envAllOk` with the secure-boot flag reported set. -/
def envSecure : BromEnv := { envAllOk with secure_boot := true }

/-- BL2 environment where everything succeeds, including the final
"Received FIP" banner. -/
def envBl2AllOk : Bl2Env :=
  { h1Ok := true, versionVal := 3, setBaudOk := true, h2Ok := true,
    sendFipOk := true, recvFipBannerOk := true }

/-- BL2 environment where only the post-baud-switch handshake fails. -/
def envBl2H2Fail : Bl2Env := { envBl2AllOk with h2Ok := false }

/-- BL2 environment where everything succeeds but the "Received FIP"
banner never arrives. -/
def envBl2NoBanner : Bl2Env := { envBl2AllOk with recvFipBannerOk := false }

/-! Claim theorems. -/

/-- C1, counterexample: a concrete session in which `send_da` returns a
device-reported checksum (0) different from the locally computed checksum
over the same payload bytes (256), yet the trace still contains the
`jump_da` command: the session does not abort before `jump_da`, because
`load_bl2` never compares the two checksums (main.rs:68-74 only prints the
returned value). -/
theorem c1_counterexample :
    BromCmd.sendDa 8 0 [0, 1] (envAllOk.deviceChecksum 8 0 [0, 1]) ∈
        (load_bl2 argsW envAllOk).1 ∧
    envAllOk.deviceChecksum 8 0 [0, 1] ≠ compute_checksum [0, 1] ∧
    BromCmd.jumpDa 8 ∈ (load_bl2 argsW envAllOk).1 := by
  decide

/-- C1, amended: the orchestrator makes no checksum comparison at all:
whenever the session reaches the upload stage, even if the device-reported
checksum differs from the locally computed one, `jump_da` is still issued
as the last command and the session completes normally. -/
theorem c1_amended_jump_issued_despite_mismatch (args : Args) (env : BromEnv)
    (hh : env.handshakeOk = true) (hsb : env.secure_boot = false)
    (hsl : env.sla = false) (hda : env.daa = false)
    (hsd : env.sendDaOk = true)
    (_hmm : env.deviceChecksum args.load_addr 0 args.payload ≠
      compute_checksum args.payload) :
    (∃ a, (load_bl2 args env).1.getLast? = some (BromCmd.jumpDa a)) ∧
    (load_bl2 args env).2 = true := by
  cases hp : args.a32_payload <;>
    simp [load_bl2, hh, hsb, hsl, hda, hsd, hp]

/-- C1, witness for the amended theorem at the concrete fixture. -/
theorem c1_amended_jump_issued_despite_mismatch_witness :
    (∃ a, (load_bl2 argsW envAllOk).1.getLast? = some (BromCmd.jumpDa a)) ∧
    (load_bl2 argsW envAllOk).2 = true :=
  c1_amended_jump_issued_despite_mismatch argsW envAllOk rfl rfl rfl rfl rfl
    (by decide)

/-- C2: if `get_target_config` reports any of secure_boot, sla or daa set,
`load_bl2` panics before the upload stage: its trace contains no `send_da`
command and the session does not complete (main.rs:54-63). -/
theorem c2_security_flag_aborts_before_upload (args : Args) (env : BromEnv)
    (h : env.secure_boot = true ∨ env.sla = true ∨ env.daa = true) :
    (load_bl2 args env).1.filter BromCmd.isSendDa = [] ∧
    (load_bl2 args env).2 = false := by
  rcases h with h | h | h <;> cases hh : env.handshakeOk <;>
    cases hsb : env.secure_boot <;> cases hsl : env.sla <;>
    cases hda : env.daa <;>
    simp_all [load_bl2, BromCmd.isSendDa]

/-- C2, witness at the concrete fixture with secure_boot set. -/
theorem c2_security_flag_aborts_before_upload_witness :
    (load_bl2 argsW envSecure).1.filter BromCmd.isSendDa = [] ∧
    (load_bl2 argsW envSecure).2 = false :=
  c2_security_flag_aborts_before_upload argsW envSecure (Or.inl rfl)

/-- C3, counterexample: a concrete BL2 session in which the first handshake
succeeds and the post-baud-switch handshake fails; the reported error is
the generic `HandshakeTimeout`, not `BaudSwitchFailed` — main.rs:120-121
invokes the same `handshake()` method after `set_baudrate` with no error
translation, so no distinct baud-switch error exists. -/
theorem c3_counterexample :
    envBl2H2Fail.h1Ok = true ∧ envBl2H2Fail.h2Ok = false ∧
    (load_fip [0] 921600 envBl2H2Fail).2 = some UartError.HandshakeTimeout ∧
    (load_fip [0] 921600 envBl2H2Fail).2 ≠ some UartError.BaudSwitchFailed := by
  decide

/-- C3, amended: when the handshake performed after `set_baudrate` fails,
the session reports the same generic handshake error (`HandshakeTimeout`)
as any other handshake failure; the code draws no `BaudSwitchFailed`
distinction. -/
theorem c3_amended_post_switch_failure_is_generic (fip : List Nat)
    (baud : Nat) (env : Bl2Env) (h1 : env.h1Ok = true)
    (hs : env.setBaudOk = true) (h2 : env.h2Ok = false) :
    (load_fip fip baud env).2 = some UartError.HandshakeTimeout := by
  simp [load_fip, h1, hs, h2]

/-- C3, witness for the amended theorem at the concrete fixture. -/
theorem c3_amended_post_switch_failure_is_generic_witness :
    (load_fip [0] 921600 envBl2H2Fail).2 = some UartError.HandshakeTimeout :=
  c3_amended_post_switch_failure_is_generic [0] 921600 envBl2H2Fail rfl rfl rfl

/-- C4: in every BL2 session trace, once a `set_baudrate` event occurs, no
upload (`send_fip`) or execute (`go`) event follows until a fresh
`handshake` event has occurred (main.rs:120-121 performs `handshake()`
immediately after `set_baudrate`, before `send_fip` and `go`); on a failed
post-switch handshake the session aborts with no further commands. -/
theorem c4_fresh_handshake_after_baud_switch (fip : List Nat) (baud : Nat)
    (env : Bl2Env) :
    handshakeConfirmsBaud (load_fip fip baud env).1 false = true := by
  cases h1 : env.h1Ok <;> cases hs : env.setBaudOk <;>
    cases h2 : env.h2Ok <;> cases hf : env.sendFipOk <;>
    simp [load_fip, h1, hs, h2, hf, handshakeConfirmsBaud]

/-- C5: gating of the BL2 stage on the FIP argument (main.rs:141-148).
With no FIP path, `main` ends right after the BootROM session: its trace
is exactly the BootROM commands. With a FIP path and a completed BootROM
session, if the wait for the "Starting UART download handshake" banner
times out, `main` returns early and normally (same unit return as on
success, no error-code distinction) and its trace contains no BL2 event. -/
theorem c5_fip_gating (args : Args) (benv : BromEnv) (b : Bool)
    (lenv : Bl2Env) (f : List Nat) :
    (args.fip = none →
      main_model args benv b lenv =
        ((load_bl2 args benv).1.map MainEv.brom, (load_bl2 args benv).2)) ∧
    (args.fip = some f → (load_bl2 args benv).2 = true →
      main_model args benv false lenv =
        ((load_bl2 args benv).1.map MainEv.brom ++
          [MainEv.waitBl2Banner false], true)) := by
  constructor
  · intro hf
    cases hr : (load_bl2 args benv).2 <;> simp [main_model, hf, hr]
  · intro hf hok
    simp [main_model, hf, hok]

/-- C5, witness: both branches at concrete fixtures (no FIP path, and a
FIP path with the banner wait timing out). -/
theorem c5_fip_gating_witness :
    (main_model argsW envAllOk true envBl2AllOk =
      ((load_bl2 argsW envAllOk).1.map MainEv.brom,
        (load_bl2 argsW envAllOk).2)) ∧
    (main_model argsF envAllOk false envBl2AllOk =
      ((load_bl2 argsF envAllOk).1.map MainEv.brom ++
        [MainEv.waitBl2Banner false], true)) :=
  ⟨(c5_fip_gating argsW envAllOk true envBl2AllOk []).1 rfl,
   (c5_fip_gating argsF envAllOk false envBl2AllOk [2]).2 rfl (by decide)⟩

/-- C6: in a BL2 session whose client calls all succeed, the event after
`go` is the wait for the "Received FIP" banner, and the session's result
is `none` (no error) whatever that wait's outcome — `load_fip` discards
`wait_for_line`'s result (main.rs:131), which logs a timeout but never
fails. -/
theorem c6_received_fip_wait_never_fails (fip : List Nat) (baud : Nat)
    (env : Bl2Env) (h1 : env.h1Ok = true) (hs : env.setBaudOk = true)
    (h2 : env.h2Ok = true) (hf : env.sendFipOk = true) :
    (load_fip fip baud env).1 =
      [Bl2Ev.handshake, Bl2Ev.version, Bl2Ev.setBaudrate baud,
       Bl2Ev.handshake, Bl2Ev.sendFip fip, Bl2Ev.go,
       Bl2Ev.waitReceivedFip env.recvFipBannerOk] ∧
    (load_fip fip baud env).2 = none := by
  simp [load_fip, h1, hs, h2, hf]

/-- C6, witness at the fixture where the "Received FIP" banner never
arrives: the session still reports no error. -/
theorem c6_received_fip_wait_never_fails_witness :
    (load_fip [2] 921600 envBl2NoBanner).1 =
      [Bl2Ev.handshake, Bl2Ev.version, Bl2Ev.setBaudrate 921600,
       Bl2Ev.handshake, Bl2Ev.sendFip [2], Bl2Ev.go,
       Bl2Ev.waitReceivedFip false] ∧
    (load_fip [2] 921600 envBl2NoBanner).2 = none :=
  c6_received_fip_wait_never_fails [2] 921600 envBl2NoBanner rfl rfl rfl rfl

/-- C7: on both clients, `handshake` is the first protocol operation of
every session trace, whatever the environment (main.rs:46 and main.rs:118
call `handshake()` immediately after constructing each client). -/
theorem c7_handshake_is_first_operation (args : Args) (env : BromEnv)
    (fip : List Nat) (baud : Nat) (lenv : Bl2Env) :
    (load_bl2 args env).1.head? = some BromCmd.handshake ∧
    (load_fip fip baud lenv).1.head? = some Bl2Ev.handshake := by
  constructor
  · cases hh : env.handshakeOk <;> cases hsb : env.secure_boot <;>
      cases hsl : env.sla <;> cases hda : env.daa <;>
      cases hsd : env.sendDaOk <;> cases hp : args.a32_payload <;>
      simp [load_bl2, hh, hsb, hsl, hda, hsd, hp]
  · cases h1 : lenv.h1Ok <;> cases hs : lenv.setBaudOk <;>
      cases h2 : lenv.h2Ok <;> cases hf : lenv.sendFipOk <;>
      simp [load_fip, h1, hs, h2, hf]

/-- C8: the CLI defaults are exactly 0x201000 for `load_addr`, 0x200a00
for `a32_load_addr` and 921600 for `bl2_load_baudrate`, each used exactly
when the corresponding argument is omitted; a provided value overrides the
default (main.rs:22, 30, 38). -/
theorem c8_cli_defaults (c : CliOptions) (v : Nat) :
    resolveCli { load_addr := none, a32_load_addr := none,
                 bl2_load_baudrate := none } =
      (0x201000, 0x200a00, 921600) ∧
    (c.load_addr = none → (resolveCli c).1 = 0x201000) ∧
    (c.a32_load_addr = none → (resolveCli c).2.1 = 0x200a00) ∧
    (c.bl2_load_baudrate = none → (resolveCli c).2.2 = 921600) ∧
    resolveCli { load_addr := some v, a32_load_addr := some v,
                 bl2_load_baudrate := some v } = (v, v, v) := by
  refine ⟨rfl, ?_, ?_, ?_, rfl⟩ <;> intro h <;> simp [resolveCli, h]

/-- C8, witness: the defaults at the all-omitted input, plus an override. -/
theorem c8_cli_defaults_witness :
    resolveCli { load_addr := none, a32_load_addr := none,
                 bl2_load_baudrate := none } =
      (0x201000, 0x200a00, 921600) ∧
    (resolveCli { load_addr := none, a32_load_addr := none,
                  bl2_load_baudrate := none }).1 = 0x201000 ∧
    resolveCli { load_addr := some 7, a32_load_addr := some 7,
                 bl2_load_baudrate := some 7 } = (7, 7, 7) :=
  ⟨(c8_cli_defaults ⟨none, none, none⟩ 7).1,
   (c8_cli_defaults ⟨none, none, none⟩ 7).2.1 rfl,
   (c8_cli_defaults ⟨none, none, none⟩ 7).2.2.2.2⟩

/-- C9: in a session that reaches the upload stage, when an a32 payload is
given the trace uploads the primary payload to `load_addr` first, then the
a32 payload to `a32_load_addr`, and `jump_da` targets `a32_load_addr`;
when it is absent, the single upload goes to `load_addr` and `jump_da`
targets `load_addr` (main.rs:65-85). -/
theorem c9_a32_order_and_jump_target (args : Args) (env : BromEnv)
    (p : List Nat) (hh : env.handshakeOk = true)
    (hsb : env.secure_boot = false) (hsl : env.sla = false)
    (hda : env.daa = false) (hsd : env.sendDaOk = true) :
    (args.a32_payload = some p →
      (load_bl2 args env).1 =
        [BromCmd.handshake, BromCmd.getHwCode, BromCmd.getHwDict,
         BromCmd.getTargetConfig,
         BromCmd.sendDa args.load_addr 0 args.payload
           (env.deviceChecksum args.load_addr 0 args.payload),
         BromCmd.sendDa args.a32_load_addr 0 p
           (env.deviceChecksum args.a32_load_addr 0 p),
         BromCmd.jumpDa args.a32_load_addr]) ∧
    (args.a32_payload = none →
      (load_bl2 args env).1 =
        [BromCmd.handshake, BromCmd.getHwCode, BromCmd.getHwDict,
         BromCmd.getTargetConfig,
         BromCmd.sendDa args.load_addr 0 args.payload
           (env.deviceChecksum args.load_addr 0 args.payload),
         BromCmd.jumpDa args.load_addr]) := by
  constructor <;> intro hp <;> simp [load_bl2, hh, hsb, hsl, hda, hsd, hp]

/-- C9, witness: both branches at the concrete fixtures. -/
theorem c9_a32_order_and_jump_target_witness :
    (load_bl2 argsA32 envAllOk).1 =
      [BromCmd.handshake, BromCmd.getHwCode, BromCmd.getHwDict,
       BromCmd.getTargetConfig, BromCmd.sendDa 8 0 [0, 1] 0,
       BromCmd.sendDa 4 0 [3] 0, BromCmd.jumpDa 4] ∧
    (load_bl2 argsW envAllOk).1 =
      [BromCmd.handshake, BromCmd.getHwCode, BromCmd.getHwDict,
       BromCmd.getTargetConfig, BromCmd.sendDa 8 0 [0, 1] 0,
       BromCmd.jumpDa 8] :=
  ⟨(c9_a32_order_and_jump_target argsA32 envAllOk [3] rfl rfl rfl rfl rfl).1
     rfl,
   (c9_a32_order_and_jump_target argsW envAllOk [3] rfl rfl rfl rfl rfl).2
     rfl⟩

/-- Soundness half for C10: if the loop returns `false` within some fuel,
then some `read_line` call errored, and every call before it succeeded
with a line not containing the pattern. -/
theorem wait_go_false_sound (s : Nat → Except Unit (List Nat))
    (pat : List Nat) :
    ∀ n k, wait_for_line_go s pat n k = some false →
      ∃ j, k ≤ j ∧ s j = Except.error () ∧
        ∀ i, k ≤ i → i < j →
          ∃ l, s i = Except.ok l ∧ containsSub l pat = false := by
  intro n
  induction n with
  | zero => intro k h; simp [wait_for_line_go] at h
  | succ m ih =>
      intro k h
      rw [wait_for_line_go] at h
      cases hs : s k with
      | error e =>
          refine ⟨k, Nat.le_refl k, ?_, ?_⟩
          · cases e; exact hs
          · intro i hki hik; omega
      | ok line =>
          simp only [hs] at h
          by_cases hc : containsSub line pat = true
          · simp [hc] at h
          · rw [if_neg hc] at h
            obtain ⟨j, hkj, herr, hpre⟩ := ih (k + 1) h
            refine ⟨j, by omega, herr, ?_⟩
            intro i hki hij
            rcases Nat.eq_or_lt_of_le hki with hik | hik
            · exact ⟨line, by rw [hik] at hs; exact hs,
                by simpa using hc⟩
            · exact hpre i hik hij

/-- Completeness half for C10: if the `read_line` call `k + d` errors and
every call from `k` up to it yields a non-matching line, the loop started
at `k` returns `false` with fuel `d + 1`. -/
theorem wait_go_false_complete (s : Nat → Except Unit (List Nat))
    (pat : List Nat) :
    ∀ d k, s (k + d) = Except.error () →
      (∀ i, k ≤ i → i < k + d →
        ∃ l, s i = Except.ok l ∧ containsSub l pat = false) →
      wait_for_line_go s pat (d + 1) k = some false := by
  intro d
  induction d with
  | zero =>
      intro k herr _
      rw [wait_for_line_go]
      rw [Nat.add_zero] at herr
      rw [herr]
  | succ m ih =>
      intro k herr hpre
      obtain ⟨l, hok, hnc⟩ := hpre k (Nat.le_refl k) (by omega)
      rw [wait_for_line_go]
      simp only [hok]
      rw [if_neg (by simp [hnc])]
      refine ih (k + 1) ?_ ?_
      · rw [show k + 1 + m = k + (m + 1) by omega]; exact herr
      · intro i hki hik
        exact hpre i (by omega) (by omega)

/-- Non-termination half for C10: if every `read_line` call succeeds with
a line not containing the pattern, the loop never returns, i.e. no amount
of fuel suffices. -/
theorem wait_go_diverges (s : Nat → Except Unit (List Nat))
    (pat : List Nat)
    (hall : ∀ i, ∃ l, s i = Except.ok l ∧ containsSub l pat = false) :
    ∀ n k, wait_for_line_go s pat n k = none := by
  intro n
  induction n with
  | zero => intro k; rfl
  | succ m ih =>
      intro k
      obtain ⟨l, hok, hnc⟩ := hall k
      rw [wait_for_line_go]
      simp only [hok]
      rw [if_neg (by simp [hnc])]
      exact ih (k + 1)

/-- C10: `wait_for_line` returns `false` (within some fuel) exactly when a
`read_line` call errors before any line containing the pattern has been
read; and on every stream where `read_line` keeps succeeding (empty lines
at end of input included) and no line contains the pattern, the loop never
returns — no fuel bound produces a result (main.rs:90-108). -/
theorem c10_wait_for_line_characterization
    (s : Nat → Except Unit (List Nat)) (pat : List Nat) :
    ((∃ n, wait_for_line_fuel s pat n = some false) ↔
      ∃ j, s j = Except.error () ∧
        ∀ i, i < j →
          ∃ l, s i = Except.ok l ∧ containsSub l pat = false) ∧
    ((∀ i, ∃ l, s i = Except.ok l ∧ containsSub l pat = false) →
      ∀ n, wait_for_line_fuel s pat n = none) := by
  constructor
  · constructor
    · rintro ⟨n, hn⟩
      obtain ⟨j, _, herr, hpre⟩ := wait_go_false_sound s pat n 0 hn
      exact ⟨j, herr, fun i hij => hpre i (Nat.zero_le i) hij⟩
    · rintro ⟨j, herr, hpre⟩
      refine ⟨j + 1, ?_⟩
      exact wait_go_false_complete s pat j 0
        (by simpa using herr)
        (fun i _ hij => hpre i (by omega))
  · intro hall n
    exact wait_go_diverges s pat hall n 0

/-- Stream every read of which errors immediately. -/
def streamErr : Nat → Except Unit (List Nat) := fun _ => Except.error ()

/-- Stream every read of which yields an empty line (end of input). -/
def streamEof : Nat → Except Unit (List Nat) := fun _ => Except.ok []

/-- C10, witness: on an immediately-erroring stream the loop returns
`false` within some fuel, and on an endless empty-line stream with a
non-empty pattern it returns nothing even with fuel 5. -/
theorem c10_wait_for_line_characterization_witness :
    (∃ n, wait_for_line_fuel streamErr [1] n = some false) ∧
    wait_for_line_fuel streamEof [1] 5 = none :=
  ⟨(c10_wait_for_line_characterization streamErr [1]).1.mpr
     ⟨0, rfl, fun i hi => absurd hi (Nat.not_lt_zero i)⟩,
   (c10_wait_for_line_characterization streamEof [1]).2
     (fun _ => ⟨[], rfl, by decide⟩) 5⟩

end MtkUartboot
